import Mathlib

/-!
Shallow embedding of the NightDriverStrip data-display effects
(`PatternStocks.h`, `PatternWeather.h`): the animated-text transition
engine, the stock and weather fetch state machines, their refresh
policies, and the sparkline extrema computation, together with proofs
of the spec-level properties.

Conventions used throughout:
* wall-clock times are rationals (seconds since an arbitrary epoch for
  `system_clock::time_point`, and plain integers for `time_t`);
* C++ `float` arithmetic is modelled exactly over `ℚ`;
* a C++ assignment of a `float` to an `int` truncates toward zero,
  modelled by `ratTrunc`;
* parsed JSON documents are records of `Option` fields; ArduinoJson
  yields 0 for a missing numeric field (`Option.getD 0`), the empty
  string for a missing string field, and an empty array for a missing
  array.
-/

namespace NightDriver

/-- Truncation toward zero of a rational: the semantics of a C++
assignment of a `float` expression to an `int` variable. -/
def ratTrunc (q : ℚ) : ℤ := if 0 ≤ q then ⌊q⌋ else ⌈q⌉

/-! ## AnimatedText (`PatternStocks.h` lines 69–132)

The transition engine: a piece of text that glides from a start position
to an end position over `animationTime` seconds.  The graphics-only
fields (`color`, `pfont`) are outside the model; `Draw` only reads
`currentX`/`currentY` and is part of the external graphics collaborator.
-/
structure AnimatedText where
  startX : ℤ
  startY : ℤ
  endX : ℤ
  endY : ℤ
  currentX : ℤ
  currentY : ℤ
  text : String
  animationTime : ℚ
  startTime : ℚ
deriving DecidableEq

/-- The `AnimatedText` constructor: records the target geometry, sets the
current position to the start position, and stamps `startTime` with the
construction-time clock (`system_clock::now()`, passed here as `now`). -/
def mkAnimatedText (text : String) (animationTime : ℚ)
    (startX startY endX endY : ℤ) (now : ℚ) : AnimatedText :=
  { startX := startX, startY := startY, endX := endX, endY := endY,
    currentX := startX, currentY := startY,
    text := text, animationTime := animationTime, startTime := now }

/-- `UpdatePos` line 114: `progress = std::min(elapsedTime.count() / animationTime, 1.0f)`. -/
def progress (a : AnimatedText) (now : ℚ) : ℚ :=
  min ((now - a.startTime) / a.animationTime) 1

/-- `UpdatePos` lines 117–118: `current = start + (end - start) * progress`,
with the float result truncated into the `int` field. -/
def interp (s e : ℤ) (p : ℚ) : ℤ :=
  ratTrunc ((s : ℚ) + ((e : ℚ) - (s : ℚ)) * p)

/-- `AnimatedText::UpdatePos` (lines 105–119), sampling the animation at
wall-clock time `now`. -/
def updatePos (a : AnimatedText) (now : ℚ) : AnimatedText :=
  { a with currentX := interp a.startX a.endX (progress a now),
           currentY := interp a.startY a.endY (progress a now) }

/-! ## Stock data model (`PatternStocks.h` lines 140–174) -/
/-- One point in a stock's price history (`StockPoint`): a timestamp
(`time_t` seconds) and a value. -/
structure StockPoint where
  dt : ℤ
  val : ℚ
deriving DecidableEq

/-- The data for a single stock (`StockData`).  The source field `open`
is a Lean keyword, so it is written `«open»` here. -/
structure StockData where
  symbol : String
  timestamp : ℤ
  «open» : ℚ
  high : ℚ
  low : ℚ
  close : ℚ
  volume : ℚ
  points : List StockPoint
deriving DecidableEq

/-- A default-constructed `StockData()`: empty symbol, epoch timestamp,
zero prices, no history. -/
def emptyStockData : StockData :=
  { symbol := "", timestamp := 0, «open» := 0, high := 0, low := 0,
    close := 0, volume := 0, points := [] }

/-- One entry of the quote server's JSON `points` array, as accessed by
`GetQuote`; `none` marks a field absent from the document. -/
structure PointDoc where
  dt : Option ℤ
  val : Option ℚ
deriving DecidableEq

/-- A successfully deserialized quote-server JSON document, as accessed
by `GetQuote`; `none` marks a field absent from the document
(`doc["points"]` absent reads as an empty array). -/
structure StockDoc where
  symbol : Option String
  timestamp : Option ℤ
  «open» : Option ℚ
  high : Option ℚ
  low : Option ℚ
  close : Option ℚ
  volume : Option ℚ
  points : List PointDoc
deriving DecidableEq

/-- Field extraction in `GetQuote` (lines 220–235).  ArduinoJson
semantics: a missing numeric field reads as 0, a missing string field as
an empty string. -/
def parseStock (doc : StockDoc) : StockData :=
  { symbol := doc.symbol.getD "",
    timestamp := doc.timestamp.getD 0,
    «open» := doc.«open».getD 0,
    high := doc.high.getD 0,
    low := doc.low.getD 0,
    close := doc.close.getD 0,
    volume := doc.volume.getD 0,
    points := doc.points.map (fun p => { dt := p.dt.getD 0, val := p.val.getD 0 }) }

def HTTP_CODE_OK : ℤ := 200

/-- `PatternStocks::GetQuote` (lines 201–254), as a function of the HTTP
status code and the deserialization outcome (`none` = malformed JSON):
the `StockData` value handed to the callback.  On success it is the
parsed document; on HTTP error or JSON parse error it is a
default-constructed (empty-symbol) `StockData()`. -/
def getQuoteResult (httpCode : ℤ) (doc : Option StockDoc) : StockData :=
  if httpCode = HTTP_CODE_OK then
    match doc with
    | some d => parseStock d
    | none => emptyStockData
  else emptyStockData

/-- Ordered insert-or-assign keyed by symbol: the model of
`stockData[symbol] = data` on the `std::map<String, StockData>`. -/
def mapInsert : List (String × StockData) → String → StockData → List (String × StockData)
  | [], k, v => [(k, v)]
  | (q, w) :: t, k, v =>
    if k < q then (k, v) :: (q, w) :: t
    else if k = q then (k, v) :: t
    else (q, w) :: mapInsert t k v

/-- The per-symbol completion callback installed by `GetAllQuotes`
(lines 287–293): store the received quote only when its symbol is
non-empty. -/
def publishQuote (m : List (String × StockData)) (d : StockData) :
    List (String × StockData) :=
  if d.symbol = "" then m else mapInsert m d.symbol d

/-! ## PatternStocks render-loop state machine (lines 180–519)

State of one `PatternStocks` instance, restricted to the fields the
render loop and the background fetch task mutate.  The four
`AnimatedText` members are modelled separately (`startQuoteDisplay`
below) because their clock is the rational `system_clock`; here
`system_clock` instants are integer seconds.  `outstanding` is a ghost
field counting fetch tasks that have been spawned by `xTaskCreate` and
have not yet exited. -/
structure StocksState where
  isUpdating : Bool
  lastUpdate : ℤ
  nextFetch : ℤ
  lastCount : ℕ
  iCurrentStock : ℕ
  stockData : List (String × StockData)
  outstanding : ℕ
deriving DecidableEq

def STOCKS_UPDATE_INTERVAL_SECONDS : ℤ := 10

def STOCKS_FETCH_INTERVAL_SECONDS : ℤ := 60

/-- `PatternStocks::BackgroundFetchQuotes` (lines 348–365): spawn a
fetch task unless one is already marked in progress. -/
def backgroundFetchQuotes (s : StocksState) : StocksState :=
  if s.isUpdating then s
  else { s with isUpdating := true, outstanding := s.outstanding + 1 }

/-- The periodic refetch trigger at the top of `PatternStocks::Draw`
(lines 488–495): when WiFi is up and `now` has passed `nextFetch`,
advance `nextFetch` by the fetch interval and call
`BackgroundFetchQuotes`. -/
def stocksFetchPhase (s : StocksState) (now : ℤ) (wifiConnected : Bool) : StocksState :=
  if wifiConnected ∧ s.nextFetch < now then
    backgroundFetchQuotes { s with nextFetch := now + STOCKS_FETCH_INTERVAL_SECONDS }
  else s

/-- The display-rotation part of `PatternStocks::Draw` (lines 499–513):
every `STOCKS_UPDATE_INTERVAL_SECONDS`, or when the number of known
stocks changed, advance `iCurrentStock` modulo the stock count.  (The
`StartQuoteDisplay` call in this branch only rebuilds the
`AnimatedText` members, which are modelled by `startQuoteDisplay`
separately; `UpdateQuoteDisplay` only reads this state.) -/
def stocksRotatePhase (s : StocksState) (now : ℤ) : StocksState :=
  if STOCKS_UPDATE_INTERVAL_SECONDS ≤ now - s.lastUpdate ∨ s.stockData.length ≠ s.lastCount then
    if s.stockData.length ≠ 0 then
      { s with lastUpdate := now, lastCount := s.stockData.length,
               iCurrentStock := (s.iCurrentStock + 1) % s.stockData.length }
    else
      { s with lastUpdate := now, lastCount := s.stockData.length }
  else s

/-- One tick of `PatternStocks::Draw` (lines 479–518). -/
def stocksDrawTick (s : StocksState) (now : ℤ) (wifiConnected : Bool) : StocksState :=
  stocksRotatePhase (stocksFetchPhase s now wifiConnected) now

/-- Completion of `PatternStocks::FetchQuotesTask` (lines 330–346): the
task runs `GetAllQuotes` — one `GetQuote` + publish per configured
symbol, here one `(httpCode, parse outcome)` pair per symbol — then
clears `isUpdating` and exits. -/
def fetchQuotesComplete (s : StocksState) (responses : List (ℤ × Option StockDoc)) :
    StocksState :=
  { s with
    stockData := responses.foldl (fun m r => publishQuote m (getQuoteResult r.1 r.2)) s.stockData,
    isUpdating := false,
    outstanding := s.outstanding - 1 }

/-- Initial state of a `PatternStocks` instance (member initializers,
lines 189–195). -/
def SInit : StocksState :=
  { isUpdating := false, lastUpdate := 0, nextFetch := 0, lastCount := 0,
    iCurrentStock := 0, stockData := [], outstanding := 0 }

/-- Interleaving of the two concurrency domains of `PatternStocks`:
render-loop ticks and fetch-task completions (a completion requires an
outstanding task). -/
inductive SStep : StocksState → StocksState → Prop
  | draw (s : StocksState) (now : ℤ) (wifi : Bool) : SStep s (stocksDrawTick s now wifi)
  | complete (s : StocksState) (responses : List (ℤ × Option StockDoc)) :
      0 < s.outstanding → SStep s (fetchQuotesComplete s responses)

def SReachable (s : StocksState) : Prop := Relation.ReflTransGen SStep SInit s

/-- The single-flight invariant of `PatternStocks`: the `isUpdating`
flag counts the outstanding fetch tasks exactly. -/
def SInv (s : StocksState) : Prop :=
  s.outstanding = if s.isUpdating then 1 else 0

/-! ## Weather data model (`PatternWeather.h`)

Weather times are `time_t` integer seconds.  The unused members
`dayOfWeek` and `pressure` are omitted.  The fetch URLs, the API key and
the zip-vs-city switch only select what the HTTP collaborator is asked
for and are outside the model; the HTTP status code and the parsed
document fields of each response are this model's inputs. -/
/-- The weather icon table (`pszWeatherIcons`, lines 54–68).  In the
source the entry after the three empty slots is the juxtaposition of two
string literals (a missing comma before `showerrain`), so `showerrain`
sits at index 8 and the array has 13 entries. -/
def pszWeatherIcons : List String :=
  [ "",
    "/bmp/clearsky.jpg",
    "/bmp/fewclouds.jpg",
    "/bmp/scatteredclouds.jpg",
    "/bmp/brokenclouds.jpg",
    "/bmp/testcloud.jpg",
    "",
    "",
    "/bmp/showerrain.jpg",
    "/bmp/rain.jpg",
    "/bmp/thunderstorm.jpg",
    "",
    "/bmp/snow.jpg" ]

def WEATHER_INTERVAL_SECONDS : ℤ := 10 * 60

/-- `KelvinToFarenheit` (line 108); 273.15 is exact in `ℚ`. -/
def kelvinToFarenheit (K : ℚ) : ℚ := (K - 27315 / 100) * 9 / 5 + 32

/-- `KelvinToCelsius` (line 113). -/
def kelvinToCelsius (K : ℚ) : ℚ := K - 27315 / 100

/-- `KelvinToLocal` (line 118), switched by the device configuration. -/
def kelvinToLocal (useCelsius : Bool) (K : ℚ) : ℚ :=
  if useCelsius then kelvinToCelsius K else kelvinToFarenheit K

/-- The fields of an OpenWeatherMap current-weather document accessed by
`getWeatherData`; `none` marks an absent field (ArduinoJson reads it as
0).  `icon` is the result of `String::toInt()` on the icon string, 0
when absent or non-numeric. -/
structure WeatherDoc where
  mainTemp : Option ℚ
  tempMax : Option ℚ
  tempMin : Option ℚ
  icon : ℤ
  name : Option String
deriving DecidableEq

/-- One entry of the OpenWeatherMap forecast list accessed by
`getTomorrowTemps`. -/
structure ForecastEntry where
  dtTxt : String
  tempMax : Option ℚ
  tempMin : Option ℚ
  icon : ℤ
deriving DecidableEq

/-- State of one `PatternWeather` instance (member initializers,
lines 75–93).  `weatherTask` is whether the `TaskHandle_t` is non-null;
`outstanding` is a ghost field counting update threads spawned and not
yet exited.  `timerPrev` is the `mPrevTrigger` of the function-static
`CEveryNSeconds timingObj` of `Draw` (line 337) — state of the render
loop even though the object lives in the external FastLED library,
because evaluating it on line 344 mutates it. -/
structure WeatherState where
  strLocationName : String
  strLocation : String
  strCountryCode : String
  strLatitude : String
  strLongitude : String
  iconToday : ℤ
  iconTomorrow : ℤ
  temperature : ℚ
  highToday : ℚ
  loToday : ℚ
  highTomorrow : ℚ
  loTomorrow : ℚ
  dataReady : Bool
  weatherTask : Bool
  updateInProgress : Bool
  latestUpdate : ℤ
  timerPrev : ℤ
  outstanding : ℕ
deriving DecidableEq

/-- `PatternWeather::HasLocationChanged` (lines 304–310). -/
def hasLocationChanged (s : WeatherState) (configLocation configCountryCode : String) : Bool :=
  s.strLocation != configLocation || s.strCountryCode != configCountryCode

/-- `PatternWeather::updateCoordinates` (lines 126–167): a no-op unless
the configured location changed; on a transport error (`code ≤ 0`) the
state is untouched; otherwise latitude/longitude are taken from the
geocoding response and the configured location is recorded. -/
def updateCoordinates (s : WeatherState) (configLocation configCountryCode : String)
    (code : ℤ) (lat lon : String) : WeatherState × Bool :=
  if hasLocationChanged s configLocation configCountryCode = false then (s, false)
  else if code ≤ 0 then (s, false)
  else
    ({ s with strLatitude := lat, strLongitude := lon,
              strLocation := configLocation, strCountryCode := configCountryCode }, true)

/-- `PatternWeather::getWeatherData` (lines 233–274).  Any positive HTTP
response code takes the success path; the sequence of member assignments
of the source is flattened into one record update (no assigned field is
read afterwards; the initial `iconToday = -1` is dead because the
clamped assignment on lines 256–259 always overwrites it). -/
def getWeatherData (useCelsius : Bool) (s : WeatherState) (code : ℤ)
    (doc : WeatherDoc) : WeatherState × Bool :=
  if 0 < code then
    ({ s with
        dataReady := if 0 < doc.mainTemp.getD 0 then true else s.dataReady,
        temperature := kelvinToLocal useCelsius (doc.mainTemp.getD 0),
        highToday := kelvinToLocal useCelsius (doc.tempMax.getD 0),
        loToday := kelvinToLocal useCelsius (doc.tempMin.getD 0),
        iconToday := if doc.icon < 1 ∨ (pszWeatherIcons.length : ℤ) ≤ doc.icon then -1
          else doc.icon,
        strLocationName := doc.name.getD s.strLocationName }, true)
  else (s, false)

/-- `PatternWeather::getTomorrowTemps` (lines 173–227).  The reference
parameters `highTemp`/`lowTemp` are bound to `highTomorrow`/`loTomorrow`
at the call site (line 288).  The loop takes the first forecast entry
whose `dt_txt` starts with tomorrow's date string. -/
def getTomorrowTemps (useCelsius : Bool) (s : WeatherState) (code : ℤ)
    (list : List ForecastEntry) (dateStr : String) : WeatherState × Bool :=
  if 0 < code then
    match list.find? (fun e => e.dtTxt.startsWith dateStr) with
    | some entry =>
        ({ s with
            highTomorrow := if 0 < entry.tempMax.getD 0 then
                kelvinToLocal useCelsius (entry.tempMax.getD 0)
              else s.highTomorrow,
            loTomorrow := if 0 < entry.tempMin.getD 0 then
                kelvinToLocal useCelsius (entry.tempMin.getD 0)
              else s.loTomorrow,
            iconTomorrow := if entry.icon < 1 ∨ (pszWeatherIcons.length : ℤ) ≤ entry.icon then -1
              else entry.icon }, true)
    | none => ({ s with iconTomorrow := -1 }, true)
  else (s, false)

/-- The fetch part of the `PatternWeather::UpdateWeather` thread
(lines 283–292): update coordinates, fetch today's weather, and on
success fetch tomorrow's forecast. -/
def updateWeatherInner (useCelsius : Bool) (s : WeatherState)
    (configLocation configCountryCode : String) (coordCode : ℤ) (lat lon : String)
    (wCode : ℤ) (wDoc : WeatherDoc)
    (fCode : ℤ) (fList : List ForecastEntry) (dateStr : String) : WeatherState :=
  if (getWeatherData useCelsius
      (updateCoordinates s configLocation configCountryCode coordCode lat lon).1
      wCode wDoc).2 then
    (getTomorrowTemps useCelsius
      (getWeatherData useCelsius
        (updateCoordinates s configLocation configCountryCode coordCode lat lon).1
        wCode wDoc).1
      fCode fList dateStr).1
  else
    (getWeatherData useCelsius
      (updateCoordinates s configLocation configCountryCode coordCode lat lon).1
      wCode wDoc).1

/-- The body of the `PatternWeather::UpdateWeather` thread
(lines 279–302) run to completion: the fetches of `updateWeatherInner`,
then clear the task handle and the in-progress flag and exit. -/
def updateWeatherRun (useCelsius : Bool) (s : WeatherState)
    (configLocation configCountryCode : String) (coordCode : ℤ) (lat lon : String)
    (wCode : ℤ) (wDoc : WeatherDoc)
    (fCode : ℤ) (fList : List ForecastEntry) (dateStr : String) : WeatherState :=
  { updateWeatherInner useCelsius s configLocation configCountryCode coordCode lat lon
      wCode wDoc fCode fList dateStr with
    weatherTask := false, updateInProgress := false,
    outstanding := (updateWeatherInner useCelsius s configLocation configCountryCode
      coordCode lat lon wCode wDoc fCode fList dateStr).outstanding - 1 }

/-- Modelled from the spec: the `CEveryNSeconds` object behind
`timingObj` (line 337) lives in the external FastLED library, outside
this excerpt.  Per its documented behavior, `ready()` is whether a full
period has elapsed since the last trigger:
`(getTime() - mPrevTrigger) >= mPeriod`. -/
def timerReady (prev period now : ℤ) : Bool := decide (period ≤ now - prev)

/-- Modelled from the spec: evaluating `timingObj` in a boolean context
(line 344) calls FastLED's `operator bool()`, which returns `ready()`
and, when ready, re-arms the timer by setting `mPrevTrigger` to the
current time — a state mutation that happens on every connected tick
whose period has elapsed, whether or not a worker is then spawned. -/
def weatherTimerPhase (s : WeatherState) (now : ℤ) : WeatherState :=
  if timerReady s.timerPrev WEATHER_INTERVAL_SECONDS now = true then
    { s with timerPrev := now }
  else s

/-- The refresh decision on line 344 of `PatternWeather::Draw`:
`(timingObj || HasLocationChanged()) && (now - latestUpdate) >= 30`,
as a pure function of the already-evaluated timer result `timerFired`
(the evaluation itself is `weatherTimerPhase`). -/
def weatherShouldRefresh (timerFired locationChanged : Bool)
    (now latestUpdate : ℤ) : Bool :=
  (timerFired || locationChanged) && decide (30 ≤ now - latestUpdate)

/-- The spawn decision of `PatternWeather::Draw` (lines 344–360), after
the timer has been evaluated: when the refresh decision fires, spawn the
update thread unless one is already in progress — recording
`latestUpdate` only in the spawn branch. -/
def weatherSpawnPhase (s : WeatherState) (now : ℤ) (timerFired : Bool)
    (configLocation configCountryCode : String) : WeatherState :=
  if weatherShouldRefresh timerFired
      (hasLocationChanged s configLocation configCountryCode) now s.latestUpdate then
    if s.updateInProgress = false ∧ s.weatherTask = false then
      { s with latestUpdate := now, updateInProgress := true, weatherTask := true,
               outstanding := s.outstanding + 1 }
    else s
  else s

/-- The state mutations of one `PatternWeather::Draw` tick
(lines 324–459): when connected, evaluate (and possibly re-arm) the
periodic timer, then run the spawn decision; the rest of `Draw` only
reads state and issues draw calls.  The C++ `now` (`time_t`) and the
FastLED timer clock both count seconds and are identified here; the
timer phase only touches `timerPrev`, which the spawn phase never
reads. -/
def weatherDrawTick (s : WeatherState) (now : ℤ) (wifiConnected : Bool)
    (configLocation configCountryCode : String) : WeatherState :=
  if wifiConnected then
    weatherSpawnPhase (weatherTimerPhase s now) now
      (timerReady s.timerPrev WEATHER_INTERVAL_SECONDS now)
      configLocation configCountryCode
  else s

/-- Initial state of a `PatternWeather` instance (member initializers,
lines 75–93).  `timerPrev := 0` models the timer as last triggered at
the epoch; in the source the static `timingObj` is constructed (and
armed) on the first connected tick, which only delays its first firing —
every proved property quantifies over the timer state, so none depends
on this choice. -/
def WInit : WeatherState :=
  { strLocationName := "", strLocation := "", strCountryCode := "",
    strLatitude := "0.0", strLongitude := "0.0",
    iconToday := -1, iconTomorrow := -1,
    temperature := 0, highToday := 0, loToday := 0,
    highTomorrow := 0, loTomorrow := 0,
    dataReady := false, weatherTask := false, updateInProgress := false,
    latestUpdate := 0, timerPrev := 0, outstanding := 0 }

/-- Interleaving of the two concurrency domains of `PatternWeather`:
render-loop ticks and update-thread runs (a run requires an outstanding
thread). -/
inductive WStep : WeatherState → WeatherState → Prop
  | draw (s : WeatherState) (now : ℤ) (wifi : Bool)
      (configLocation configCountryCode : String) :
      WStep s (weatherDrawTick s now wifi configLocation configCountryCode)
  | update (s : WeatherState) (useCelsius : Bool)
      (configLocation configCountryCode : String) (coordCode : ℤ) (lat lon : String)
      (wCode : ℤ) (wDoc : WeatherDoc)
      (fCode : ℤ) (fList : List ForecastEntry) (dateStr : String) :
      0 < s.outstanding →
      WStep s (updateWeatherRun useCelsius s configLocation configCountryCode
        coordCode lat lon wCode wDoc fCode fList dateStr)

def WReachable (s : WeatherState) : Prop := Relation.ReflTransGen WStep WInit s

/-- The single-flight invariant of `PatternWeather`: the in-progress
flag and the task handle track the outstanding thread count exactly. -/
def WFlightInv (s : WeatherState) : Prop :=
  s.outstanding = (if s.updateInProgress then 1 else 0) ∧
  s.weatherTask = s.updateInProgress

/-! ## Weather icon bounds -/
/-- After the clamp on lines 211/258, an icon index is either the
sentinel `-1` or a valid index into `pszWeatherIcons`. -/
def iconOK (i : ℤ) : Prop := i = -1 ∨ (1 ≤ i ∧ i < (pszWeatherIcons.length : ℤ))

def WIconInv (s : WeatherState) : Prop := iconOK s.iconToday ∧ iconOK s.iconTomorrow

/-! ## Sparkline extrema (`PatternStocks::UpdateQuoteDisplay`, lines 407–472) -/
/-- The matrix width of the build configuration (Mesmerizer, 64×32);
`MATRIX_WIDTH` is a build-time constant outside this excerpt and none of
the proved properties depend on its value. -/
def MATRIX_WIDTH : ℤ := 64

/-- `std::numeric_limits<float>::max()`, exactly. -/
def fltMax : ℚ := 2 ^ 128 - 2 ^ 104

/-- The running maximum of the extrema loop (lines 436–445): seeded with
`0.0f` and folded over the first `n` history values. -/
def sparkMax (vals : List ℚ) (n : ℕ) : ℚ := (vals.take n).foldl max 0

/-- The running minimum of the extrema loop (lines 436–445): seeded with
`numeric_limits<float>::max()` and folded over the first `n` history
values. -/
def sparkMin (vals : List ℚ) (n : ℕ) : ℚ := (vals.take n).foldl min fltMax

/-- The `(min, max)` pair computed by `UpdateQuoteDisplay` for the
currently displayed stock, over
`n = std::min((uint)MATRIX_WIDTH, points.size())` points (lines 432–445). -/
def graphExtrema (stock : StockData) : ℚ × ℚ :=
  (sparkMin (stock.points.map StockPoint.val) (min MATRIX_WIDTH.toNat stock.points.length),
   sparkMax (stock.points.map StockPoint.val) (min MATRIX_WIDTH.toNat stock.points.length))

/-! ## StartQuoteDisplay (`PatternStocks.h` lines 377–400) -/
/-- Model of the Arduino `String(float value, int decimals)` conversion:
round to `decimals` places and render in fixed-point notation.  This is
a boundary formatting helper — only the length of its result feeds the
layout, and no proved property depends on it. -/
def formatFixed (q : ℚ) (decimals : ℕ) : String :=
  let scaled : ℤ := round (q * (10 : ℚ) ^ decimals)
  let sign := if scaled < 0 then "-" else ""
  let n := scaled.natAbs
  if decimals = 0 then sign ++ toString n
  else
    let frac := toString (n % 10 ^ decimals)
    let pad := String.mk (List.replicate (decimals - frac.length) '0')
    sign ++ toString (n / 10 ^ decimals) ++ "." ++ pad ++ frac

/-- The four `AnimatedText` members of `PatternStocks` (lines 182–185). -/
structure StockTexts where
  textSymbol : AnimatedText
  textPrice : AnimatedText
  textChange : AnimatedText
  textVolume : AnimatedText
deriving DecidableEq

/-- The member initializers of the four flyers (lines 182–185). -/
def initialStockTexts (now : ℚ) : StockTexts :=
  { textSymbol := mkAnimatedText "STOCK" 1 MATRIX_WIDTH 0 0 0 now,
    textPrice := mkAnimatedText "PRICE" 1 MATRIX_WIDTH 8 0 8 now,
    textChange := mkAnimatedText "CHANGE" 1 MATRIX_WIDTH 16 0 16 now,
    textVolume := mkAnimatedText "VOLUME" 1 MATRIX_WIDTH 24 0 24 now }

/-- `PatternStocks::StartQuoteDisplay` (lines 381–400): replace all four
flyers with fresh `AnimatedText` objects whose start positions are the
fixed off-screen columns `-MATRIX_WIDTH` (or `-2 * MATRIX_WIDTH` for the
volume line) and whose `startTime` is the construction-time clock. -/
def startQuoteDisplay (data : StockData) (now : ℚ) : StockTexts :=
  let pricetext := if (10000 : ℚ) ≤ data.close then formatFixed data.close 0
    else formatFixed data.close 2
  let pricelen : ℤ := pricetext.length
  let textwidth : ℤ := 5
  let changetext := formatFixed (data.close - data.«open») 2
  let changelen : ℤ := changetext.length
  let voltext := formatFixed data.volume 0
  let vollen : ℤ := voltext.length
  { textSymbol := mkAnimatedText data.symbol (1/2) (-MATRIX_WIDTH) 8 0 8 now,
    textPrice := mkAnimatedText pricetext (3/4) (-MATRIX_WIDTH) 8
      (MATRIX_WIDTH - pricelen * textwidth) 8 now,
    textChange := mkAnimatedText changetext 1 (-MATRIX_WIDTH) 15
      (MATRIX_WIDTH - changelen * textwidth) 15 now,
    textVolume := mkAnimatedText voltext 1 (-MATRIX_WIDTH * 2) 22
      (MATRIX_WIDTH - vollen * textwidth) 22 now }

/-! ## Refresh decision queries and concrete example states -/
/-- The stocks refresh decision (line 490 of `PatternStocks::Draw`):
`system_clock::now() > nextFetch`. -/
def stocksShouldFetch (s : StocksState) (now : ℤ) : Bool := decide (s.nextFetch < now)

/-- A quote-server document with the symbol present but every price
field absent (the JSON body `{"symbol":"AAPL"}`). -/
def c6doc : StockDoc :=
  { symbol := some "AAPL", timestamp := none, «open» := none, high := none,
    low := none, close := none, volume := none, points := [] }

/-- The zero-defaulted snapshot that `GetQuote` builds from `c6doc`. -/
def c6snapshot : StockData :=
  { symbol := "AAPL", timestamp := 0, «open» := 0, high := 0, low := 0,
    close := 0, volume := 0, points := [] }

/-- A weather state holding a previously fetched temperature of 70°. -/
def c7state : WeatherState := { WInit with temperature := 70, dataReady := true }

/-- An empty parsed weather document (every field absent; `icon` is
`String::toInt()` of a missing string, i.e. 0). -/
def c7doc : WeatherDoc :=
  { mainTemp := none, tempMax := none, tempMin := none, icon := 0, name := none }

/-- A stocks state with a fetch task in flight and `nextFetch` due. -/
def c8state : StocksState := { SInit with isUpdating := true, outstanding := 1 }

/-- A weather state with an update thread in flight. -/
def c8wstate : WeatherState :=
  { WInit with updateInProgress := true, weatherTask := true, outstanding := 1 }

/-- A stock whose history values are all negative. -/
def c9stock : StockData :=
  { symbol := "NEG", timestamp := 0, «open» := -4, high := -3, low := -5,
    close := -4, volume := 0, points := [⟨0, -5⟩, ⟨1, -3⟩] }

/-- A concrete freshly fetched quote. -/
def d5 : StockData :=
  { symbol := "AAPL", timestamp := 1700000000, «open» := 180, high := 190,
    low := 175, close := 185, volume := 1000000, points := [] }

theorem ratTrunc_mono {p q : ℚ} (h : p ≤ q) : ratTrunc p ≤ ratTrunc q := by
  unfold ratTrunc
  split_ifs with hp hq
  · exact Int.floor_mono h
  · exact absurd (le_trans hp h) hq
  · refine le_trans (Int.ceil_le.mpr ?_) (Int.floor_nonneg.mpr (by assumption))
    push_cast
    exact le_of_lt (not_le.mp hp)
  · exact Int.ceil_mono h

theorem ratTrunc_intCast (n : ℤ) : ratTrunc (n : ℚ) = n := by
  unfold ratTrunc
  split_ifs <;> simp

theorem progress_mono (a : AnimatedText) (hT : 0 < a.animationTime)
    {t1 t2 : ℚ} (h : t1 ≤ t2) : progress a t1 ≤ progress a t2 := by
  unfold progress
  refine min_le_min ?_ le_rfl
  gcongr

theorem progress_eq_one (a : AnimatedText) (hT : 0 < a.animationTime)
    {now : ℚ} (h : a.startTime + a.animationTime ≤ now) : progress a now = 1 := by
  unfold progress
  apply min_eq_right
  rw [le_div_iff₀ hT]
  linarith

theorem interp_mono_of_le {s e : ℤ} (hse : s ≤ e) {p q : ℚ} (h : p ≤ q) :
    interp s e p ≤ interp s e q := by
  apply ratTrunc_mono
  have hc : (0 : ℚ) ≤ (e : ℚ) - (s : ℚ) := by
    rw [sub_nonneg]
    exact_mod_cast hse
  exact add_le_add_left (mul_le_mul_of_nonneg_left h hc) _

theorem interp_anti_of_ge {s e : ℤ} (hse : e ≤ s) {p q : ℚ} (h : p ≤ q) :
    interp s e q ≤ interp s e p := by
  apply ratTrunc_mono
  have hc : (e : ℚ) - (s : ℚ) ≤ 0 := by
    rw [sub_nonpos]
    exact_mod_cast hse
  exact add_le_add_left (mul_le_mul_of_nonpos_left h hc) _

theorem interp_one (s e : ℤ) : interp s e 1 = e := by
  unfold interp
  have h : (s : ℚ) + ((e : ℚ) - (s : ℚ)) * 1 = (e : ℚ) := by ring
  rw [h, ratTrunc_intCast]

theorem sInv_init : SInv SInit := rfl

theorem stocksRotatePhase_isUpdating (s : StocksState) (now : ℤ) :
    (stocksRotatePhase s now).isUpdating = s.isUpdating := by
  unfold stocksRotatePhase
  split_ifs <;> rfl

theorem stocksRotatePhase_outstanding (s : StocksState) (now : ℤ) :
    (stocksRotatePhase s now).outstanding = s.outstanding := by
  unfold stocksRotatePhase
  split_ifs <;> rfl

theorem stocksRotatePhase_nextFetch (s : StocksState) (now : ℤ) :
    (stocksRotatePhase s now).nextFetch = s.nextFetch := by
  unfold stocksRotatePhase
  split_ifs <;> rfl

theorem sInv_fetchPhase (s : StocksState) (now : ℤ) (wifi : Bool) (hs : SInv s) :
    SInv (stocksFetchPhase s now wifi) := by
  unfold SInv at *
  unfold stocksFetchPhase backgroundFetchQuotes
  split_ifs <;> simp_all

theorem sInv_drawTick (s : StocksState) (now : ℤ) (wifi : Bool) (hs : SInv s) :
    SInv (stocksDrawTick s now wifi) := by
  have h1 := sInv_fetchPhase s now wifi hs
  unfold SInv at *
  unfold stocksDrawTick
  rw [stocksRotatePhase_outstanding, stocksRotatePhase_isUpdating]
  exact h1

theorem sInv_complete (s : StocksState) (responses : List (ℤ × Option StockDoc))
    (hs : SInv s) : SInv (fetchQuotesComplete s responses) := by
  unfold SInv at *
  unfold fetchQuotesComplete
  split_ifs at * <;> simp_all

theorem sInv_step {s t : StocksState} (h : SStep s t) (hs : SInv s) : SInv t := by
  cases h with
  | draw now wifi => exact sInv_drawTick s now wifi hs
  | complete responses hout => exact sInv_complete s responses hs

theorem sInv_reach {s : StocksState} (h : SReachable s) : SInv s := by
  induction h with
  | refl => exact sInv_init
  | tail _ hstep ih => exact sInv_step hstep ih

theorem updateCoordinates_flight (s : WeatherState) (l c : String) (code : ℤ)
    (lat lon : String) :
    ((updateCoordinates s l c code lat lon).1.outstanding = s.outstanding ∧
     (updateCoordinates s l c code lat lon).1.updateInProgress = s.updateInProgress ∧
     (updateCoordinates s l c code lat lon).1.weatherTask = s.weatherTask) := by
  unfold updateCoordinates
  split_ifs <;> exact ⟨rfl, rfl, rfl⟩

theorem getWeatherData_flight (u : Bool) (s : WeatherState) (code : ℤ) (doc : WeatherDoc) :
    ((getWeatherData u s code doc).1.outstanding = s.outstanding ∧
     (getWeatherData u s code doc).1.updateInProgress = s.updateInProgress ∧
     (getWeatherData u s code doc).1.weatherTask = s.weatherTask) := by
  unfold getWeatherData
  split_ifs <;> exact ⟨rfl, rfl, rfl⟩

theorem getTomorrowTemps_flight (u : Bool) (s : WeatherState) (code : ℤ)
    (list : List ForecastEntry) (dateStr : String) :
    ((getTomorrowTemps u s code list dateStr).1.outstanding = s.outstanding ∧
     (getTomorrowTemps u s code list dateStr).1.updateInProgress = s.updateInProgress ∧
     (getTomorrowTemps u s code list dateStr).1.weatherTask = s.weatherTask) := by
  unfold getTomorrowTemps
  split_ifs
  · cases hfind : List.find? (fun e => e.dtTxt.startsWith dateStr) list with
    | none => exact ⟨rfl, rfl, rfl⟩
    | some entry => exact ⟨rfl, rfl, rfl⟩
  · exact ⟨rfl, rfl, rfl⟩

theorem wFlightInv_timerPhase (s : WeatherState) (now : ℤ) (hs : WFlightInv s) :
    WFlightInv (weatherTimerPhase s now) := by
  unfold WFlightInv at *
  unfold weatherTimerPhase
  split_ifs <;> simp_all

theorem wFlightInv_spawnPhase (s : WeatherState) (now : ℤ) (tf : Bool)
    (l c : String) (hs : WFlightInv s) :
    WFlightInv (weatherSpawnPhase s now tf l c) := by
  unfold WFlightInv at *
  unfold weatherSpawnPhase
  split_ifs <;> simp_all

theorem wFlightInv_drawTick (s : WeatherState) (now : ℤ) (wifi : Bool)
    (l c : String) (hs : WFlightInv s) :
    WFlightInv (weatherDrawTick s now wifi l c) := by
  unfold weatherDrawTick
  split_ifs
  · exact wFlightInv_spawnPhase _ now _ l c (wFlightInv_timerPhase s now hs)
  · exact hs

theorem updateWeatherInner_flight (u : Bool) (s : WeatherState) (l c : String)
    (coordCode : ℤ) (lat lon : String) (wCode : ℤ) (wDoc : WeatherDoc)
    (fCode : ℤ) (fList : List ForecastEntry) (dateStr : String) :
    ((updateWeatherInner u s l c coordCode lat lon wCode wDoc fCode fList dateStr).outstanding
        = s.outstanding ∧
     (updateWeatherInner u s l c coordCode lat lon wCode wDoc fCode fList dateStr).updateInProgress
        = s.updateInProgress ∧
     (updateWeatherInner u s l c coordCode lat lon wCode wDoc fCode fList dateStr).weatherTask
        = s.weatherTask) := by
  have h1 := updateCoordinates_flight s l c coordCode lat lon
  have h2 := getWeatherData_flight u (updateCoordinates s l c coordCode lat lon).1 wCode wDoc
  have h3 := getTomorrowTemps_flight u
    (getWeatherData u (updateCoordinates s l c coordCode lat lon).1 wCode wDoc).1
    fCode fList dateStr
  unfold updateWeatherInner
  split_ifs
  · exact ⟨h3.1.trans (h2.1.trans h1.1), (h3.2.1).trans ((h2.2.1).trans h1.2.1),
      (h3.2.2).trans ((h2.2.2).trans h1.2.2)⟩
  · exact ⟨h2.1.trans h1.1, (h2.2.1).trans h1.2.1, (h2.2.2).trans h1.2.2⟩

theorem updateWeatherRun_fields (u : Bool) (s : WeatherState) (l c : String)
    (coordCode : ℤ) (lat lon : String) (wCode : ℤ) (wDoc : WeatherDoc)
    (fCode : ℤ) (fList : List ForecastEntry) (dateStr : String) :
    ((updateWeatherRun u s l c coordCode lat lon wCode wDoc fCode fList dateStr).outstanding
        = s.outstanding - 1 ∧
     (updateWeatherRun u s l c coordCode lat lon wCode wDoc fCode fList dateStr).updateInProgress
        = false ∧
     (updateWeatherRun u s l c coordCode lat lon wCode wDoc fCode fList dateStr).weatherTask
        = false) := by
  refine ⟨?_, rfl, rfl⟩
  show (updateWeatherInner u s l c coordCode lat lon wCode wDoc fCode fList
    dateStr).outstanding - 1 = s.outstanding - 1
  rw [(updateWeatherInner_flight u s l c coordCode lat lon wCode wDoc fCode fList dateStr).1]

theorem wFlightInv_update (u : Bool) (s : WeatherState) (l c : String)
    (coordCode : ℤ) (lat lon : String) (wCode : ℤ) (wDoc : WeatherDoc)
    (fCode : ℤ) (fList : List ForecastEntry) (dateStr : String) (hs : WFlightInv s) :
    WFlightInv (updateWeatherRun u s l c coordCode lat lon wCode wDoc fCode fList dateStr) := by
  obtain ⟨hso, hst⟩ := hs
  obtain ⟨ho, hp, ht⟩ :=
    updateWeatherRun_fields u s l c coordCode lat lon wCode wDoc fCode fList dateStr
  refine ⟨?_, ?_⟩
  · rw [ho, hp, hso]
    cases s.updateInProgress <;> simp
  · rw [ht, hp]

theorem wFlightInv_step {s t : WeatherState} (h : WStep s t) (hs : WFlightInv s) :
    WFlightInv t := by
  cases h with
  | draw now wifi l c => exact wFlightInv_drawTick s now wifi l c hs
  | update u l c coordCode lat lon wCode wDoc fCode fList dateStr hout =>
      exact wFlightInv_update u s l c coordCode lat lon wCode wDoc fCode fList dateStr hs

theorem wFlightInv_reach {s : WeatherState} (h : WReachable s) : WFlightInv s := by
  induction h with
  | refl => exact ⟨rfl, rfl⟩
  | tail _ hstep ih => exact wFlightInv_step hstep ih

theorem updateCoordinates_icons (s : WeatherState) (l c : String) (code : ℤ)
    (lat lon : String) :
    ((updateCoordinates s l c code lat lon).1.iconToday = s.iconToday ∧
     (updateCoordinates s l c code lat lon).1.iconTomorrow = s.iconTomorrow) := by
  unfold updateCoordinates
  split_ifs <;> exact ⟨rfl, rfl⟩

theorem getWeatherData_iconToday (u : Bool) (s : WeatherState) (code : ℤ)
    (doc : WeatherDoc) :
    (getWeatherData u s code doc).1.iconToday = s.iconToday ∨
      iconOK (getWeatherData u s code doc).1.iconToday := by
  have hlen : (pszWeatherIcons.length : ℤ) = 13 := rfl
  unfold getWeatherData iconOK
  by_cases hc : 0 < code
  · rw [if_pos hc]
    by_cases hi : doc.icon < 1 ∨ (pszWeatherIcons.length : ℤ) ≤ doc.icon
    · refine Or.inr (Or.inl ?_)
      show (if doc.icon < 1 ∨ (pszWeatherIcons.length : ℤ) ≤ doc.icon then (-1 : ℤ)
        else doc.icon) = -1
      rw [if_pos hi]
    · refine Or.inr (Or.inr ⟨?_, ?_⟩)
      · show (1 : ℤ) ≤ if doc.icon < 1 ∨ (pszWeatherIcons.length : ℤ) ≤ doc.icon then -1
          else doc.icon
        rw [if_neg hi]
        rw [hlen] at hi
        omega
      · show (if doc.icon < 1 ∨ (pszWeatherIcons.length : ℤ) ≤ doc.icon then (-1 : ℤ)
          else doc.icon) < (pszWeatherIcons.length : ℤ)
        rw [if_neg hi, hlen]
        rw [hlen] at hi
        omega
  · rw [if_neg hc]
    exact Or.inl rfl

theorem getWeatherData_iconTomorrow (u : Bool) (s : WeatherState) (code : ℤ)
    (doc : WeatherDoc) :
    (getWeatherData u s code doc).1.iconTomorrow = s.iconTomorrow := by
  unfold getWeatherData
  split_ifs <;> rfl

theorem getTomorrowTemps_iconToday (u : Bool) (s : WeatherState) (code : ℤ)
    (list : List ForecastEntry) (dateStr : String) :
    (getTomorrowTemps u s code list dateStr).1.iconToday = s.iconToday := by
  unfold getTomorrowTemps
  split_ifs
  · cases hfind : List.find? (fun e => e.dtTxt.startsWith dateStr) list with
    | none => rfl
    | some entry => rfl
  · rfl

theorem getTomorrowTemps_iconTomorrow (u : Bool) (s : WeatherState) (code : ℤ)
    (list : List ForecastEntry) (dateStr : String) :
    (getTomorrowTemps u s code list dateStr).1.iconTomorrow = s.iconTomorrow ∨
      iconOK (getTomorrowTemps u s code list dateStr).1.iconTomorrow := by
  have hlen : (pszWeatherIcons.length : ℤ) = 13 := rfl
  unfold getTomorrowTemps iconOK
  by_cases hc : 0 < code
  · rw [if_pos hc]
    cases hfind : List.find? (fun e => e.dtTxt.startsWith dateStr) list with
    | none => exact Or.inr (Or.inl rfl)
    | some entry =>
        by_cases hi : entry.icon < 1 ∨ (pszWeatherIcons.length : ℤ) ≤ entry.icon
        · refine Or.inr (Or.inl ?_)
          show (if entry.icon < 1 ∨ (pszWeatherIcons.length : ℤ) ≤ entry.icon then (-1 : ℤ)
            else entry.icon) = -1
          rw [if_pos hi]
        · refine Or.inr (Or.inr ⟨?_, ?_⟩)
          · show (1 : ℤ) ≤ if entry.icon < 1 ∨ (pszWeatherIcons.length : ℤ) ≤ entry.icon then -1
              else entry.icon
            rw [if_neg hi]
            rw [hlen] at hi
            omega
          · show (if entry.icon < 1 ∨ (pszWeatherIcons.length : ℤ) ≤ entry.icon then (-1 : ℤ)
              else entry.icon) < (pszWeatherIcons.length : ℤ)
            rw [if_neg hi, hlen]
            rw [hlen] at hi
            omega
  · rw [if_neg hc]
    exact Or.inl rfl

theorem wIconInv_inner (u : Bool) (s : WeatherState) (l c : String)
    (coordCode : ℤ) (lat lon : String) (wCode : ℤ) (wDoc : WeatherDoc)
    (fCode : ℤ) (fList : List ForecastEntry) (dateStr : String) (hs : WIconInv s) :
    WIconInv (updateWeatherInner u s l c coordCode lat lon wCode wDoc fCode fList dateStr) := by
  obtain ⟨hcoordT, hcoordM⟩ := updateCoordinates_icons s l c coordCode lat lon
  have hwT := getWeatherData_iconToday u (updateCoordinates s l c coordCode lat lon).1 wCode wDoc
  have hwM := getWeatherData_iconTomorrow u (updateCoordinates s l c coordCode lat lon).1 wCode wDoc
  have hfT := getTomorrowTemps_iconToday u
    (getWeatherData u (updateCoordinates s l c coordCode lat lon).1 wCode wDoc).1
    fCode fList dateStr
  have hfM := getTomorrowTemps_iconTomorrow u
    (getWeatherData u (updateCoordinates s l c coordCode lat lon).1 wCode wDoc).1
    fCode fList dateStr
  obtain ⟨hsT, hsM⟩ := hs
  unfold updateWeatherInner
  split_ifs
  · constructor
    · rw [hfT]
      rcases hwT with h | h
      · rw [h, hcoordT]; exact hsT
      · exact h
    · rcases hfM with h | h
      · rw [h, hwM, hcoordM]; exact hsM
      · exact h
  · constructor
    · rcases hwT with h | h
      · rw [h, hcoordT]; exact hsT
      · exact h
    · rw [hwM, hcoordM]; exact hsM

theorem wIconInv_update (u : Bool) (s : WeatherState) (l c : String)
    (coordCode : ℤ) (lat lon : String) (wCode : ℤ) (wDoc : WeatherDoc)
    (fCode : ℤ) (fList : List ForecastEntry) (dateStr : String) (hs : WIconInv s) :
    WIconInv (updateWeatherRun u s l c coordCode lat lon wCode wDoc fCode fList dateStr) :=
  wIconInv_inner u s l c coordCode lat lon wCode wDoc fCode fList dateStr hs

theorem wIconInv_drawTick (s : WeatherState) (now : ℤ) (wifi : Bool)
    (l c : String) (hs : WIconInv s) :
    WIconInv (weatherDrawTick s now wifi l c) := by
  unfold WIconInv at *
  unfold weatherDrawTick weatherSpawnPhase weatherTimerPhase
  split_ifs <;> exact hs

theorem wIconInv_step {s t : WeatherState} (h : WStep s t) (hs : WIconInv s) :
    WIconInv t := by
  cases h with
  | draw now wifi l c => exact wIconInv_drawTick s now wifi l c hs
  | update u l c coordCode lat lon wCode wDoc fCode fList dateStr hout =>
      exact wIconInv_update u s l c coordCode lat lon wCode wDoc fCode fList dateStr hs

theorem wIconInv_reach {s : WeatherState} (h : WReachable s) : WIconInv s := by
  induction h with
  | refl => exact ⟨Or.inl rfl, Or.inl rfl⟩
  | tail _ hstep ih => exact wIconInv_step hstep ih

theorem foldl_max_shift (l : List ℚ) : ∀ a b : ℚ, l.foldl max (max a b) = max a (l.foldl max b) := by
  induction l with
  | nil => intro a b; rfl
  | cons c t ih =>
      intro a b
      show t.foldl max (max (max a b) c) = max a (t.foldl max (max b c))
      rw [max_assoc, ih]

theorem foldl_min_shift (l : List ℚ) : ∀ a b : ℚ, l.foldl min (min a b) = min a (l.foldl min b) := by
  induction l with
  | nil => intro a b; rfl
  | cons c t ih =>
      intro a b
      show t.foldl min (min (min a b) c) = min a (t.foldl min (min b c))
      rw [min_assoc, ih]

theorem foldl_max_mem (l : List ℚ) : ∀ y : ℚ, l.foldl max y ∈ y :: l := by
  induction l with
  | nil => intro y; exact List.mem_singleton.mpr rfl
  | cons b t ih =>
      intro y
      show t.foldl max (max y b) ∈ y :: b :: t
      rcases List.mem_cons.mp (ih (max y b)) with h1 | h1
      · rcases max_choice y b with h2 | h2 <;> rw [h1, h2] <;> simp
      · exact List.mem_cons_of_mem _ (List.mem_cons_of_mem _ h1)

theorem foldl_min_mem (l : List ℚ) : ∀ y : ℚ, l.foldl min y ∈ y :: l := by
  induction l with
  | nil => intro y; exact List.mem_singleton.mpr rfl
  | cons b t ih =>
      intro y
      show t.foldl min (min y b) ∈ y :: b :: t
      rcases List.mem_cons.mp (ih (min y b)) with h1 | h1
      · rcases min_choice y b with h2 | h2 <;> rw [h1, h2] <;> simp
      · exact List.mem_cons_of_mem _ (List.mem_cons_of_mem _ h1)

theorem le_foldl_max (l : List ℚ) : ∀ y : ℚ, ∀ v ∈ y :: l, v ≤ l.foldl max y := by
  induction l with
  | nil =>
      intro y v hv
      rw [List.mem_singleton.mp hv]
      exact le_refl _
  | cons b t ih =>
      intro y v hv
      show v ≤ t.foldl max (max y b)
      have hmax : ∀ w ∈ (max y b) :: t, w ≤ t.foldl max (max y b) := ih (max y b)
      have htop : max y b ≤ t.foldl max (max y b) := hmax _ (List.mem_cons_self _ _)
      rcases List.mem_cons.mp hv with h | h
      · subst h; exact le_trans (le_max_left _ b) htop
      · rcases List.mem_cons.mp h with h1 | h1
        · subst h1; exact le_trans (le_max_right y _) htop
        · exact hmax v (List.mem_cons_of_mem _ h1)

theorem foldl_min_le (l : List ℚ) : ∀ y : ℚ, ∀ v ∈ y :: l, l.foldl min y ≤ v := by
  induction l with
  | nil =>
      intro y v hv
      rw [List.mem_singleton.mp hv]
      exact le_refl _
  | cons b t ih =>
      intro y v hv
      show t.foldl min (min y b) ≤ v
      have hmin : ∀ w ∈ (min y b) :: t, t.foldl min (min y b) ≤ w := ih (min y b)
      have htop : t.foldl min (min y b) ≤ min y b := hmin _ (List.mem_cons_self _ _)
      rcases List.mem_cons.mp hv with h | h
      · subst h; exact le_trans htop (min_le_left _ b)
      · rcases List.mem_cons.mp h with h1 | h1
        · subst h1; exact le_trans htop (min_le_right y _)
        · exact hmin v (List.mem_cons_of_mem _ h1)

/-! ## Helper lemmas about the draw ticks -/
theorem stocksDrawTick_of_updating (s : StocksState) (now : ℤ) (wifi : Bool)
    (h : s.isUpdating = true) :
    (stocksDrawTick s now wifi).outstanding = s.outstanding ∧
    (stocksDrawTick s now wifi).isUpdating = true := by
  unfold stocksDrawTick
  rw [stocksRotatePhase_outstanding, stocksRotatePhase_isUpdating]
  unfold stocksFetchPhase backgroundFetchQuotes
  split_ifs <;> simp_all

theorem stocksDrawTick_nextFetch_fires (s : StocksState) (now : ℤ)
    (h : s.nextFetch < now) :
    (stocksDrawTick s now true).nextFetch = now + STOCKS_FETCH_INTERVAL_SECONDS := by
  unfold stocksDrawTick
  rw [stocksRotatePhase_nextFetch]
  unfold stocksFetchPhase backgroundFetchQuotes
  rw [if_pos ⟨rfl, h⟩]
  split_ifs <;> rfl

theorem weatherSpawnPhase_of_inflight (s : WeatherState) (now : ℤ) (tf : Bool)
    (l c : String) (h : s.updateInProgress = true) :
    weatherSpawnPhase s now tf l c = s := by
  unfold weatherSpawnPhase
  split_ifs with h1 h2
  · rw [h] at h2
    exact absurd h2.1 (by simp)
  · rfl
  · rfl

theorem weatherSpawnPhase_timerPrev (s : WeatherState) (now : ℤ) (tf : Bool)
    (l c : String) : (weatherSpawnPhase s now tf l c).timerPrev = s.timerPrev := by
  unfold weatherSpawnPhase
  split_ifs <;> rfl

theorem weatherTimerPhase_cases (s : WeatherState) (now : ℤ) :
    weatherTimerPhase s now =
      { s with timerPrev := (weatherTimerPhase s now).timerPrev } := by
  unfold weatherTimerPhase
  split_ifs <;> rfl

theorem weatherTimerPhase_fired (s : WeatherState) (now : ℤ)
    (ht : WEATHER_INTERVAL_SECONDS ≤ now - s.timerPrev) :
    weatherTimerPhase s now = { s with timerPrev := now } := by
  unfold weatherTimerPhase
  rw [if_pos]
  unfold timerReady
  exact decide_eq_true ht

theorem weatherDrawTick_of_inflight (s : WeatherState) (now : ℤ) (wifi : Bool)
    (l c : String) (h : s.updateInProgress = true) :
    weatherDrawTick s now wifi l c =
      { s with timerPrev := (weatherDrawTick s now wifi l c).timerPrev } := by
  unfold weatherDrawTick
  split_ifs with hw
  · have hpd : (weatherTimerPhase s now).updateInProgress = true := by
      unfold weatherTimerPhase
      split_ifs <;> exact h
    rw [weatherSpawnPhase_of_inflight (weatherTimerPhase s now) now
      (timerReady s.timerPrev WEATHER_INTERVAL_SECONDS now) l c hpd]
    exact weatherTimerPhase_cases s now
  · rfl

theorem weatherDrawTick_timer_advances (s : WeatherState) (now : ℤ) (l c : String)
    (ht : WEATHER_INTERVAL_SECONDS ≤ now - s.timerPrev) :
    (weatherDrawTick s now true l c).timerPrev = now := by
  unfold weatherDrawTick
  rw [if_pos rfl, weatherSpawnPhase_timerPrev, weatherTimerPhase_fired s now ht]

/-! ## The claimed properties -/
/-- C1: for every source, at most one background fetch is in flight at
any instant.  In every reachable state of the stocks machine and of the
weather machine, at most one fetch task is outstanding, and on any
render-loop tick taken while a task is outstanding no second task is
spawned (the `isUpdating` guard of `BackgroundFetchQuotes`, resp. the
`updateInProgress`/`weatherTask` guard of `PatternWeather::Draw`, makes
the spawn branch unreachable). -/
theorem C1_single_flight :
    (∀ s : StocksState, SReachable s → s.outstanding ≤ 1 ∧
      (0 < s.outstanding → ∀ (now : ℤ) (wifi : Bool),
        (stocksDrawTick s now wifi).outstanding = s.outstanding)) ∧
    (∀ w : WeatherState, WReachable w → w.outstanding ≤ 1 ∧
      (0 < w.outstanding → ∀ (now : ℤ) (wifi : Bool) (l c : String),
        (weatherDrawTick w now wifi l c).outstanding = w.outstanding)) := by
  constructor
  · intro s hs
    have hinv := sInv_reach hs
    unfold SInv at hinv
    constructor
    · rw [hinv]
      split_ifs <;> omega
    · intro hpos now wifi
      have hupd : s.isUpdating = true := by
        cases hu : s.isUpdating
        · rw [hu] at hinv
          simp at hinv
          omega
        · rfl
      exact (stocksDrawTick_of_updating s now wifi hupd).1
  · intro w hw
    obtain ⟨ho, ht⟩ := wFlightInv_reach hw
    constructor
    · rw [ho]
      split_ifs <;> omega
    · intro hpos now wifi l c
      have hupd : w.updateInProgress = true := by
        cases hu : w.updateInProgress
        · rw [hu] at ho
          simp at ho
          omega
        · rfl
      rw [weatherDrawTick_of_inflight w now wifi l c hupd]

/-- C1 witness: the single-flight bound instantiated at the initial
states. -/
theorem C1_single_flight_witness :
    SInit.outstanding ≤ 1 ∧ WInit.outstanding ≤ 1 :=
  ⟨(C1_single_flight.1 SInit Relation.ReflTransGen.refl).1,
   (C1_single_flight.2 WInit Relation.ReflTransGen.refl).1⟩

/-- C2 counterexample: with the weather location changed but only 10 s
elapsed since the last attempt, the refresh decision is `false` — the
30-second floor on line 344 overrides the config-change trigger, so the
decision is not "true immediately regardless of elapsed time". -/
theorem C2_counterexample :
    weatherShouldRefresh false true 10 0 = false ∧
    hasLocationChanged WInit "Seattle" "US" = true ∧
    weatherDrawTick WInit 10 true "Seattle" "US" = WInit := by decide

/-- C2 amended: a config-fingerprint change forces the weather refresh
decision true regardless of the periodic timer, provided at least 30 s
have elapsed since the last attempt; and for stocks (60 s fetch
interval), after a tick whose decision fired at `t0`, the decision 10 s
later is false. -/
theorem C2_refresh_policy :
    (∀ (tf : Bool) (now lu : ℤ), 30 ≤ now - lu →
      weatherShouldRefresh tf true now lu = true) ∧
    (∀ (s : StocksState) (t0 : ℤ), s.nextFetch < t0 →
      stocksShouldFetch (stocksDrawTick s t0 true) (t0 + 10) = false) := by
  constructor
  · intro tf now lu h
    unfold weatherShouldRefresh
    simp [h]
  · intro s t0 h
    unfold stocksShouldFetch
    rw [stocksDrawTick_nextFetch_fires s t0 h]
    rw [decide_eq_false_iff_not]
    unfold STOCKS_FETCH_INTERVAL_SECONDS
    omega

/-- C2 witness: the amended refresh policy evaluated at concrete
inputs. -/
theorem C2_refresh_policy_witness :
    ((30 : ℤ) ≤ 40 - 0 ∧ weatherShouldRefresh false true 40 0 = true) ∧
    (SInit.nextFetch < 5 ∧ stocksShouldFetch (stocksDrawTick SInit 5 true) (5 + 10) = false) :=
  ⟨⟨by decide, C2_refresh_policy.1 false 40 0 (by decide)⟩,
   ⟨by decide, C2_refresh_policy.2 SInit 5 (by decide)⟩⟩

/-- C3: for a fixed animated element, the sampled position is monotone
in the sample time (toward the end position on both axes), and for any
sample time at or past `startTime + animationTime` the sampled position
is exactly the end position — no overshoot. -/
theorem C3_sample_monotone_exact (a : AnimatedText) (hT : 0 < a.animationTime) :
    (∀ t1 t2 : ℚ, t1 ≤ t2 →
      (a.startX ≤ a.endX → (updatePos a t1).currentX ≤ (updatePos a t2).currentX) ∧
      (a.endX ≤ a.startX → (updatePos a t2).currentX ≤ (updatePos a t1).currentX) ∧
      (a.startY ≤ a.endY → (updatePos a t1).currentY ≤ (updatePos a t2).currentY) ∧
      (a.endY ≤ a.startY → (updatePos a t2).currentY ≤ (updatePos a t1).currentY)) ∧
    (∀ now : ℚ, a.startTime + a.animationTime ≤ now →
      (updatePos a now).currentX = a.endX ∧ (updatePos a now).currentY = a.endY) := by
  constructor
  · intro t1 t2 h12
    have hp := progress_mono a hT h12
    exact ⟨fun hse => interp_mono_of_le hse hp,
           fun hse => interp_anti_of_ge hse hp,
           fun hse => interp_mono_of_le hse hp,
           fun hse => interp_anti_of_ge hse hp⟩
  · intro now hnow
    have h1 := progress_eq_one a hT hnow
    constructor
    · show interp a.startX a.endX (progress a now) = a.endX
      rw [h1, interp_one]
    · show interp a.startY a.endY (progress a now) = a.endY
      rw [h1, interp_one]

/-- C3 witness: the initial "STOCK" flyer sampled after its duration
sits exactly at its end column 0. -/
theorem C3_sample_monotone_exact_witness :
    0 < ((initialStockTexts 0).textSymbol).animationTime ∧
    ((initialStockTexts 0).textSymbol).startTime +
      ((initialStockTexts 0).textSymbol).animationTime ≤ (3 : ℚ) ∧
    (updatePos ((initialStockTexts 0).textSymbol) 3).currentX =
      ((initialStockTexts 0).textSymbol).endX :=
  ⟨by decide, by norm_num [initialStockTexts, mkAnimatedText],
   ((C3_sample_monotone_exact ((initialStockTexts 0).textSymbol) (by decide)).2 3
     (by norm_num [initialStockTexts, mkAnimatedText])).1⟩

/-- C4 counterexample: `UpdatePos` has no lower clamp, so for a sample
time before `startTime` the computed progress is negative — here an
element constructed at time 1 sampled at time 0 has progress `-1`. -/
theorem C4_counterexample :
    progress (mkAnimatedText "STOCK" 1 64 0 0 0 1) 0 < 0 := by
  have h : progress (mkAnimatedText "STOCK" 1 64 0 0 0 1) 0 = -1 := by
    show min (((0 : ℚ) - 1) / 1) 1 = -1
    rw [min_eq_left (by norm_num)]
    norm_num
  rw [h]
  norm_num

/-- C4 amended: the computed progress is `min ((now - startTime) /
duration) 1` — never greater than 1, and nonnegative for every sample
time at or after `startTime` (in the program `startTime` is the
element's construction time, so samples do not precede it); there is no
lower clamp for earlier sample times. -/
theorem C4_progress_bounds (a : AnimatedText) (hT : 0 < a.animationTime) {now : ℚ}
    (hs : a.startTime ≤ now) : 0 ≤ progress a now ∧ progress a now ≤ 1 := by
  constructor
  · unfold progress
    apply le_min
    · apply div_nonneg (by linarith) (le_of_lt hT)
    · norm_num
  · exact min_le_right _ _

/-- C4 witness: progress of the initial "STOCK" flyer at time 1/2 lies
in [0, 1]. -/
theorem C4_progress_bounds_witness :
    0 < ((initialStockTexts 0).textSymbol).animationTime ∧
    ((initialStockTexts 0).textSymbol).startTime ≤ (1/2 : ℚ) ∧
    (0 ≤ progress ((initialStockTexts 0).textSymbol) (1/2) ∧
      progress ((initialStockTexts 0).textSymbol) (1/2) ≤ 1) :=
  ⟨by decide, by norm_num [initialStockTexts, mkAnimatedText],
   C4_progress_bounds _ (by decide) (by norm_num [initialStockTexts, mkAnimatedText])⟩

/-- C5 counterexample: the initial "STOCK" flyer (from column 64 to
column 0, duration 1 s) sampled mid-flight at t = 1/2 sits at column 32;
retargeting at that moment via `StartQuoteDisplay` builds a flyer whose
start (and current) column is the fixed off-screen `-MATRIX_WIDTH`,
not the current sampled position 32. -/
theorem C5_counterexample :
    (updatePos ((initialStockTexts 0).textSymbol) (1/2)).currentX = 32 ∧
    (startQuoteDisplay d5 (1/2)).textSymbol.startX ≠ 32 ∧
    (startQuoteDisplay d5 (1/2)).textSymbol.currentX ≠ 32 := by
  refine ⟨?_, by decide, by decide⟩
  have hp : progress ((initialStockTexts 0).textSymbol) (1/2) = 1/2 := by
    show min (((1/2 : ℚ) - 0) / 1) 1 = 1/2
    rw [min_eq_left (by norm_num)]
    norm_num
  show interp ((initialStockTexts 0).textSymbol).startX
    ((initialStockTexts 0).textSymbol).endX
    (progress ((initialStockTexts 0).textSymbol) (1/2)) = 32
  rw [hp]
  show ratTrunc (((64 : ℤ) : ℚ) + (((0 : ℤ) : ℚ) - ((64 : ℤ) : ℚ)) * (1/2)) = 32
  have h32 : ((64 : ℤ) : ℚ) + (((0 : ℤ) : ℚ) - ((64 : ℤ) : ℚ)) * (1/2) = 32 := by norm_num
  rw [h32]
  unfold ratTrunc
  rw [if_pos (by norm_num : (0 : ℚ) ≤ 32)]
  rfl

/-- C5 amended: a retarget (`StartQuoteDisplay`) replaces each flyer
with a fresh animation whose start and current positions are the fixed
off-screen columns `-MATRIX_WIDTH` (resp. `-MATRIX_WIDTH * 2` for the
volume line) — independent of the element's current sampled position —
and whose clock restarts at the retargeting time. -/
theorem C5_retarget_fixed_start (data : StockData) (now : ℚ) :
    (startQuoteDisplay data now).textSymbol.startX = -MATRIX_WIDTH ∧
    (startQuoteDisplay data now).textSymbol.currentX = -MATRIX_WIDTH ∧
    (startQuoteDisplay data now).textPrice.startX = -MATRIX_WIDTH ∧
    (startQuoteDisplay data now).textPrice.currentX = -MATRIX_WIDTH ∧
    (startQuoteDisplay data now).textChange.startX = -MATRIX_WIDTH ∧
    (startQuoteDisplay data now).textChange.currentX = -MATRIX_WIDTH ∧
    (startQuoteDisplay data now).textVolume.startX = -MATRIX_WIDTH * 2 ∧
    (startQuoteDisplay data now).textVolume.currentX = -MATRIX_WIDTH * 2 ∧
    (startQuoteDisplay data now).textSymbol.startTime = now :=
  ⟨rfl, rfl, rfl, rfl, rfl, rfl, rfl, rfl, rfl⟩

/-- C6: with HTTP 200 and the valid JSON body `{"symbol":"AAPL"}` (all
price fields absent), `GetQuote` silently defaults every missing field
to zero, and since the symbol is non-empty the `GetAllQuotes` callback
publishes the zero-valued snapshot into the store, where a read returns
it — it does not surface as a parse failure. -/
theorem C6_zero_snapshot_published :
    getQuoteResult 200 (some c6doc) = c6snapshot ∧
    publishQuote [] (getQuoteResult 200 (some c6doc)) = [("AAPL", c6snapshot)] ∧
    List.lookup "AAPL" (publishQuote [] (getQuoteResult 200 (some c6doc))) = some c6snapshot :=
  ⟨rfl, rfl, rfl⟩

/-- C7 counterexample: a weather fetch that completes with the
non-success HTTP status 404 and an empty body is treated as a success by
`getWeatherData` (any positive response code is), overwriting the
previously stored temperature 70° with the zero-Kelvin default
−459.67°F. -/
theorem C7_counterexample :
    c7state.temperature = 70 ∧
    (getWeatherData false c7state 404 c7doc).1.temperature = -45967/100 ∧
    (getWeatherData false c7state 404 c7doc).1.temperature ≠ c7state.temperature := by
  have ht : (getWeatherData false c7state 404 c7doc).1.temperature = -45967/100 := by
    show kelvinToLocal false (c7doc.mainTemp.getD 0) = -45967/100
    norm_num [kelvinToLocal, kelvinToFarenheit, c7doc]
  refine ⟨rfl, ht, ?_⟩
  rw [ht]
  norm_num [c7state, WInit]

/-- C7 amended: the stocks store is left unchanged by every failed
fetch — non-200 status, or JSON parse error — and the weather state is
left unchanged by transport errors (response code ≤ 0); but the weather
code treats any positive HTTP status as success, so non-2xx responses
(and unreported parse failures) overwrite the stored weather fields. -/
theorem C7_failure_keeps_snapshot :
    (∀ (m : List (String × StockData)) (code : ℤ) (doc : Option StockDoc),
      code ≠ HTTP_CODE_OK → publishQuote m (getQuoteResult code doc) = m) ∧
    (∀ (m : List (String × StockData)) (code : ℤ),
      publishQuote m (getQuoteResult code none) = m) ∧
    (∀ (u : Bool) (s : WeatherState) (code : ℤ) (doc : WeatherDoc),
      code ≤ 0 → getWeatherData u s code doc = (s, false)) ∧
    (∀ (u : Bool) (s : WeatherState) (code : ℤ) (list : List ForecastEntry) (dateStr : String),
      code ≤ 0 → getTomorrowTemps u s code list dateStr = (s, false)) := by
  refine ⟨?_, ?_, ?_, ?_⟩
  · intro m code doc hcode
    unfold getQuoteResult
    rw [if_neg hcode]
    unfold publishQuote
    exact if_pos rfl
  · intro m code
    unfold getQuoteResult
    by_cases h : code = HTTP_CODE_OK
    · rw [if_pos h]
      unfold publishQuote
      exact if_pos rfl
    · rw [if_neg h]
      unfold publishQuote
      exact if_pos rfl
  · intro u s code doc h
    unfold getWeatherData
    rw [if_neg (by omega : ¬ (0 : ℤ) < code)]
  · intro u s code list dateStr h
    unfold getTomorrowTemps
    rw [if_neg (by omega : ¬ (0 : ℤ) < code)]

/-- C7 witness: a 404 stock fetch publishes nothing into an empty store,
and a weather transport error (code −1) leaves the initial state
untouched. -/
theorem C7_failure_keeps_snapshot_witness :
    ((404 : ℤ) ≠ HTTP_CODE_OK ∧ publishQuote [] (getQuoteResult 404 none) = []) ∧
    ((-1 : ℤ) ≤ 0 ∧ getWeatherData false WInit (-1) c7doc = (WInit, false)) :=
  ⟨⟨by decide, C7_failure_keeps_snapshot.1 [] 404 none (by decide)⟩,
   ⟨by decide, C7_failure_keeps_snapshot.2.2.1 false WInit (-1) c7doc (by decide)⟩⟩

/-- C8 counterexample: both sources falsify the claim.  Stocks: with a
fetch in flight and `nextFetch` due, the tick's refresh decision is
true, no worker is spawned (`outstanding` and `isUpdating` unchanged),
yet `nextFetch` is advanced.  Weather: with an update in flight and the
ten-minute period elapsed, the tick spawns nothing (`outstanding`
unchanged) yet evaluating `timingObj` re-arms the periodic schedule
(`timerPrev` advances) — bookkeeping mutated by the refresh query
itself on a non-spawning tick. -/
theorem C8_counterexample :
    (stocksShouldFetch c8state 100 = true ∧
     (stocksDrawTick c8state 100 true).outstanding = c8state.outstanding ∧
     (stocksDrawTick c8state 100 true).isUpdating = true ∧
     (stocksDrawTick c8state 100 true).nextFetch ≠ c8state.nextFetch) ∧
    ((weatherDrawTick c8wstate 700 true "" "").outstanding = c8wstate.outstanding ∧
     (weatherDrawTick c8wstate 700 true "" "").updateInProgress = true ∧
     (weatherDrawTick c8wstate 700 true "" "").timerPrev ≠ c8wstate.timerPrev) := by decide

/-- C8 amended: the last-attempt records are updated only on ticks that
actually spawn a worker — on a weather tick taken while an update is in
flight every field except the periodic timer is unchanged (in
particular `latestUpdate`).  But the periodic schedule itself advances
without a spawn on both sources: evaluating the weather refresh
condition re-arms the static `CEveryNSeconds` whenever its period has
elapsed, spawn or no spawn, and stocks advances `nextFetch` on every
tick whose decision fires even when `BackgroundFetchQuotes` skips the
spawn. -/
theorem C8_refresh_bookkeeping :
    (∀ (w : WeatherState) (now : ℤ) (wifi : Bool) (l c : String),
      w.updateInProgress = true →
        weatherDrawTick w now wifi l c =
          { w with timerPrev := (weatherDrawTick w now wifi l c).timerPrev }) ∧
    (∀ (w : WeatherState) (now : ℤ) (l c : String),
      WEATHER_INTERVAL_SECONDS ≤ now - w.timerPrev →
        (weatherDrawTick w now true l c).timerPrev = now) ∧
    (∀ (s : StocksState) (now : ℤ), s.isUpdating = true → s.nextFetch < now →
      (stocksDrawTick s now true).nextFetch = now + STOCKS_FETCH_INTERVAL_SECONDS ∧
      (stocksDrawTick s now true).outstanding = s.outstanding) := by
  refine ⟨?_, ?_, ?_⟩
  · intro w now wifi l c h
    exact weatherDrawTick_of_inflight w now wifi l c h
  · intro w now l c ht
    exact weatherDrawTick_timer_advances w now l c ht
  · intro s now h hl
    exact ⟨stocksDrawTick_nextFetch_fires s now hl,
           (stocksDrawTick_of_updating s now true h).1⟩

/-- C8 witness: the amended bookkeeping facts at the concrete in-flight
states. -/
theorem C8_refresh_bookkeeping_witness :
    (c8wstate.updateInProgress = true ∧
      weatherDrawTick c8wstate 700 true "" "" =
        { c8wstate with timerPrev := (weatherDrawTick c8wstate 700 true "" "").timerPrev }) ∧
    (WEATHER_INTERVAL_SECONDS ≤ 700 - c8wstate.timerPrev ∧
      (weatherDrawTick c8wstate 700 true "" "").timerPrev = 700) ∧
    (c8state.isUpdating = true ∧ c8state.nextFetch < 100 ∧
      (stocksDrawTick c8state 100 true).nextFetch = 100 + STOCKS_FETCH_INTERVAL_SECONDS ∧
      (stocksDrawTick c8state 100 true).outstanding = c8state.outstanding) :=
  ⟨⟨rfl, C8_refresh_bookkeeping.1 c8wstate 700 true "" "" rfl⟩,
   ⟨by decide, C8_refresh_bookkeeping.2.1 c8wstate 700 "" "" (by decide)⟩,
   ⟨rfl, by decide,
    (C8_refresh_bookkeeping.2.2 c8state 100 rfl (by decide)).1,
    (C8_refresh_bookkeeping.2.2 c8state 100 rfl (by decide)).2⟩⟩

/-- C9 counterexample: for a history whose values are all negative
([-5, -3]), the loop's running maximum — seeded with `0.0f` — computes
0, which is not the true maximum (−3) of the displayed points. -/
theorem C9_counterexample :
    (graphExtrema c9stock).2 = 0 ∧
    c9stock.points.map StockPoint.val = [-5, -3] ∧
    (∀ v ∈ c9stock.points.map StockPoint.val, v ≤ -3) :=
  ⟨rfl, rfl, by decide⟩

/-- C9 amended: the extrema are recomputed each tick from the displayed
history values alone (the stored high/low fields are unused): the
computed minimum is the true minimum of the displayed points (whenever
the first value is at most FLT_MAX, as every float is), while the
computed maximum is the true maximum clamped below by the 0.0 seed —
equal to the true maximum exactly when some displayed value is ≥ 0, and
wrong for all-negative histories. -/
theorem C9_extrema (points : List ℚ) (n : ℕ) (y : ℚ) (ys : List ℚ)
    (htake : points.take n = y :: ys) (hy : y ≤ fltMax) :
    sparkMin points n = ys.foldl min y ∧
    (ys.foldl min y ∈ y :: ys ∧ ∀ v ∈ y :: ys, ys.foldl min y ≤ v) ∧
    sparkMax points n = max 0 (ys.foldl max y) ∧
    (ys.foldl max y ∈ y :: ys ∧ ∀ v ∈ y :: ys, v ≤ ys.foldl max y) ∧
    (0 ≤ ys.foldl max y → sparkMax points n = ys.foldl max y) := by
  have hmin : sparkMin points n = ys.foldl min y := by
    unfold sparkMin
    rw [htake]
    show ys.foldl min (min fltMax y) = _
    rw [foldl_min_shift]
    exact min_eq_right (le_trans (foldl_min_le ys y _ (List.mem_cons_self _ _)) hy)
  have hmax : sparkMax points n = max 0 (ys.foldl max y) := by
    unfold sparkMax
    rw [htake]
    show ys.foldl max (max 0 y) = _
    rw [foldl_max_shift]
  refine ⟨hmin, ⟨foldl_min_mem ys y, foldl_min_le ys y⟩, hmax,
    ⟨foldl_max_mem ys y, le_foldl_max ys y⟩, ?_⟩
  intro h0
  rw [hmax]
  exact max_eq_right h0

/-- C9 witness: the amended extrema statement evaluated on the history
[5, 3]. -/
theorem C9_extrema_witness :
    ([(5 : ℚ), 3].take 2 = 5 :: [3] ∧ (5 : ℚ) ≤ fltMax) ∧
    sparkMin [5, 3] 2 = [(3 : ℚ)].foldl min 5 ∧
    sparkMax [5, 3] 2 = max 0 ([(3 : ℚ)].foldl max 5) :=
  ⟨⟨rfl, by norm_num [fltMax]⟩,
   (C9_extrema [5, 3] 2 5 [3] rfl (by norm_num [fltMax])).1,
   (C9_extrema [5, 3] 2 5 [3] rfl (by norm_num [fltMax])).2.2.1⟩

/-- C10: in every reachable state of the weather machine, each icon
index is either −1 or in [1, ARRAYSIZE(pszWeatherIcons)), so the render
path — which indexes `pszWeatherIcons` only when the index is ≥ 0 —
always indexes in bounds. -/
theorem C10_icon_bounds (s : WeatherState) (h : WReachable s) :
    (s.iconToday = -1 ∨ (1 ≤ s.iconToday ∧ s.iconToday < (pszWeatherIcons.length : ℤ))) ∧
    (s.iconTomorrow = -1 ∨ (1 ≤ s.iconTomorrow ∧ s.iconTomorrow < (pszWeatherIcons.length : ℤ))) ∧
    (0 ≤ s.iconToday → s.iconToday.toNat < pszWeatherIcons.length) ∧
    (0 ≤ s.iconTomorrow → s.iconTomorrow.toNat < pszWeatherIcons.length) := by
  obtain ⟨h1, h2⟩ := wIconInv_reach h
  have hlen : (pszWeatherIcons.length : ℤ) = 13 := rfl
  unfold iconOK at h1 h2
  refine ⟨h1, h2, ?_, ?_⟩
  · intro hge
    show s.iconToday.toNat < 13
    rw [hlen] at h1
    omega
  · intro hge
    show s.iconTomorrow.toNat < 13
    rw [hlen] at h2
    omega

/-- C10 witness: the icon bounds at the initial state. -/
theorem C10_icon_bounds_witness :
    (WInit.iconToday = -1 ∨
      (1 ≤ WInit.iconToday ∧ WInit.iconToday < (pszWeatherIcons.length : ℤ))) ∧
    (WInit.iconTomorrow = -1 ∨
      (1 ≤ WInit.iconTomorrow ∧ WInit.iconTomorrow < (pszWeatherIcons.length : ℤ))) ∧
    (0 ≤ WInit.iconToday → WInit.iconToday.toNat < pszWeatherIcons.length) ∧
    (0 ≤ WInit.iconTomorrow → WInit.iconTomorrow.toNat < pszWeatherIcons.length) :=
  C10_icon_bounds WInit Relation.ReflTransGen.refl

end NightDriver
